import Mathlib

/-!
Verification of the opsml artifact-registry specification against a shallow
embedding of the repository code. Each Python function relevant to the
claims is translated into an executable Lean definition; stateful or
effectful code is modelled with explicit state passing and `Except`.
-/

set_option maxRecDepth 4096

namespace Opsml

/-- Kinds of Python exceptions raised by the embedded code. -/
inductive ExcKind where
  | valueError
  | unsupportedTypeError
  | indexError
  deriving DecidableEq, Repr

/-- A Python exception: a kind together with its message. -/
structure PyExc where
  kind : ExcKind
  msg : String
  deriving DecidableEq, Repr

/-! ## Type dispatcher (opsml/registry/data/types.py) -/

/-- Structural view of a Python object as observed by `check_data_type`:
the result of each `isinstance` test, the fully qualified class name
computed by `get_class_name`, and the rendering `str(type(data))` used in
the error message. -/
structure PyObjView where
  isDict : Bool
  isImageDataset : Bool
  isNdarray : Bool
  isPandasDF : Bool
  isPolarsDF : Bool
  isArrowTable : Bool
  isStr : Bool
  className : String
  typeRepr : String
  deriving DecidableEq, Repr

namespace AllowedDataType

def PANDAS : String := "pandas.core.frame.DataFrame"
def PYARROW : String := "pyarrow.lib.Table"
def POLARS : String := "polars.dataframe.frame.DataFrame"
def NUMPY : String := "numpy.ndarray"
def IMAGE : String := "ImageDataset"
def DICT : String := "dict"
def TRANSFORMER_BATCH : String := "transformers.tokenization_utils_base.BatchEncoding"
def STRING : String := "str"
def TORCH_TENSOR : String := "torch.Tensor"
def TENSORFLOW_TENSOR : String := "tensorflow.python.framework.ops.EagerTensor"

end AllowedDataType

/-- The message of the exception raised by `check_data_type` when no
classifier matches; it embeds `str(type(data))`. -/
def unsupportedMsg (typeRepr : String) : String :=
  "Data must be one of the following types: numpy array, pandas dataframe, polars dataframe, pyarrow table, or ImageDataset. Received " ++ typeRepr

/-- Embedding of `check_data_type`: the ordered `isinstance` chain followed
by class-name fallbacks, raising `ValueError` when nothing matches. -/
def check_data_type (data : PyObjView) : Except PyExc String :=
  if data.isDict then .ok AllowedDataType.DICT
  else if data.isImageDataset then .ok AllowedDataType.IMAGE
  else if data.isNdarray then .ok AllowedDataType.NUMPY
  else if data.isPandasDF then .ok AllowedDataType.PANDAS
  else if data.isPolarsDF then .ok AllowedDataType.POLARS
  else if data.isArrowTable then .ok AllowedDataType.PYARROW
  else if data.isStr then .ok AllowedDataType.STRING
  else if data.className == AllowedDataType.TRANSFORMER_BATCH then .ok AllowedDataType.TRANSFORMER_BATCH
  else if data.className == AllowedDataType.TORCH_TENSOR then .ok AllowedDataType.TORCH_TENSOR
  else if data.className == AllowedDataType.TENSORFLOW_TENSOR then .ok AllowedDataType.TENSORFLOW_TENSOR
  else .error { kind := ExcKind.valueError, msg := unsupportedMsg data.typeRepr }

/-- The classifier list of `check_data_type` in source order: each entry is
the structural check paired with the tag it returns. -/
def classifiers : List ((PyObjView → Bool) × String) :=
  [ (fun d => d.isDict, AllowedDataType.DICT),
    (fun d => d.isImageDataset, AllowedDataType.IMAGE),
    (fun d => d.isNdarray, AllowedDataType.NUMPY),
    (fun d => d.isPandasDF, AllowedDataType.PANDAS),
    (fun d => d.isPolarsDF, AllowedDataType.POLARS),
    (fun d => d.isArrowTable, AllowedDataType.PYARROW),
    (fun d => d.isStr, AllowedDataType.STRING),
    (fun d => d.className == AllowedDataType.TRANSFORMER_BATCH, AllowedDataType.TRANSFORMER_BATCH),
    (fun d => d.className == AllowedDataType.TORCH_TENSOR, AllowedDataType.TORCH_TENSOR),
    (fun d => d.className == AllowedDataType.TENSORFLOW_TENSOR, AllowedDataType.TENSORFLOW_TENSOR) ]

/-- First matching classifier in a priority list. -/
def firstMatch : List ((PyObjView → Bool) × String) → PyObjView → Option String
  | [], _ => none
  | (p, tag) :: rest, d => if p d then some tag else firstMatch rest d

/-- A concrete unsupported object: a Python float. No `isinstance` check
matches it and its class name is none of the fallback names. -/
def floatObj : PyObjView :=
  { isDict := false, isImageDataset := false, isNdarray := false,
    isPandasDF := false, isPolarsDF := false, isArrowTable := false,
    isStr := false, className := "float", typeRepr := "<class float>" }

/-- A concrete object whose structural checks report both dict and ndarray
(possible under multiple inheritance). -/
def dictAndArrayObj : PyObjView :=
  { isDict := true, isImageDataset := false, isNdarray := true,
    isPandasDF := true, isPolarsDF := false, isArrowTable := false,
    isStr := false, className := "mymod.DictArray", typeRepr := "<class mymod.DictArray>" }

/-! ## download_model route (opsml/app/routes/artifacts_routes.py) -/

/-- Download chunk size from artifacts_routes.py. -/
def CHUNK_SIZE : Nat := 31457280

/-- A model card record as consumed by `download_model`: only the
`onnx_model_uri` field is read. -/
structure ModelCardRecord where
  onnx_model_uri : Option String
  deriving DecidableEq, Repr

/-- Outcome of the `download_model` route: either a streaming response of
the stored model at the given chunk size, or an `HTTPException` with a
status code and detail message. -/
inductive DownloadModelResult where
  | streamResponse (uri : Option String) (chunkSize : Nat) (contentDisposition : String)
  | httpError (statusCode : Nat) (detail : String)
  deriving DecidableEq, Repr

/-- Embedding of `download_model` after `registry.list_cards` returned
`cards`: more than one card and zero cards both raise status 500; a unique
card is streamed with the attachment header. -/
def download_model (cards : List ModelCardRecord) : DownloadModelResult :=
  if cards.length > 1 then
    .httpError 500 "More than one model found"
  else
    match cards with
    | [] => .httpError 500 "No model found"
    | card :: _ =>
        .streamResponse card.onnx_model_uri CHUNK_SIZE "attachment; filename=model_def.json"

/-- Status code of a `download_model` outcome (200 for a stream). -/
def downloadStatus : DownloadModelResult → Nat
  | .streamResponse _ _ _ => 200
  | .httpError s _ => s

/-! ## Schema derivation (opsml_data/registry/formatter.py) -/

/-- Input to `DataFormatter.create_table_schema`: a pyarrow table seen as
its schema (parallel name and type lists), a numpy array seen as its dtype
string, or anything else. -/
inductive ArrowOrNumpy where
  | arrowTable (schemaNames : List String) (schemaTypes : List String)
  | ndarray (dtype : String)
  | other
  deriving DecidableEq, Repr

/-- Embedding of `DataFormatter.create_table_schema`: zips arrow schema
names with stringified types, maps a numpy array to a single
`numpy_dtype` entry, and anything else to `data_dtype -> None`. -/
def create_table_schema : ArrowOrNumpy → List (String × Option String)
  | .arrowTable names types => (names.zip types).map (fun p => (p.1, some p.2))
  | .ndarray dtype => [("numpy_dtype", some dtype)]
  | .other => [("data_dtype", none)]

/-! ## Data splitter (opsml/registry/data/splitter.py) -/

/-- Modelled from the spec: `DataSplit` from opsml/registry/data/splitter.py
is not under src (only its test is). A split spec is one of three variants,
encoded as a pydantic model whose unset fields default to None: a
column-predicate split sets column_name and column_value, a range split
sets start and stop, an explicit-indices split sets indices. -/
structure DataSplit where
  label : String
  column_name : Option String := none
  column_value : Option String := none
  start : Option Int := none
  stop : Option Int := none
  indices : Option (List Nat) := none
  deriving DecidableEq, Repr

/-- Modelled from the spec: `DataSplitterBase` wraps a split spec and the
dependent variables. -/
structure DataSplitterBase where
  split : DataSplit
  dependent_vars : List String
  deriving DecidableEq, Repr

/-- Modelled from the spec: the `column_name` property of
`DataSplitterBase` returns the value when the split carries one and raises
`ValueError` otherwise. -/
def DataSplitterBase.columnName (s : DataSplitterBase) : Except PyExc String :=
  match s.split.column_name with
  | some v => .ok v
  | none => .error { kind := ExcKind.valueError, msg := "Split does not contain a column name" }

/-- Modelled from the spec: the `column_value` property, `ValueError` when
absent. -/
def DataSplitterBase.columnValue (s : DataSplitterBase) : Except PyExc String :=
  match s.split.column_value with
  | some v => .ok v
  | none => .error { kind := ExcKind.valueError, msg := "Split does not contain a column value" }

/-- Modelled from the spec: the `start` property, `ValueError` when
absent. -/
def DataSplitterBase.startIdx (s : DataSplitterBase) : Except PyExc Int :=
  match s.split.start with
  | some v => .ok v
  | none => .error { kind := ExcKind.valueError, msg := "Split does not contain a start index" }

/-- Modelled from the spec: the `stop` property, `ValueError` when
absent. -/
def DataSplitterBase.stopIdx (s : DataSplitterBase) : Except PyExc Int :=
  match s.split.stop with
  | some v => .ok v
  | none => .error { kind := ExcKind.valueError, msg := "Split does not contain a stop index" }

/-- Modelled from the spec: the `indices` property, `ValueError` when
absent. -/
def DataSplitterBase.indicesList (s : DataSplitterBase) : Except PyExc (List Nat) :=
  match s.split.indices with
  | some v => .ok v
  | none => .error { kind := ExcKind.valueError, msg := "Split does not contain indices" }

/-- `DataSplit(label=l, indices=idx)`: the explicit-indices variant. -/
def mkIndicesSplit (label : String) (idx : List Nat) : DataSplit :=
  { label := label, indices := some idx }

/-- `DataSplit(label=l, start=a, stop=b)`: the range variant. -/
def mkRangeSplit (label : String) (a b : Int) : DataSplit :=
  { label := label, start := some a, stop := some b }

/-- Whether an embedded property access raised a `ValueError`. -/
def raisesValueError {α : Type} : Except PyExc α → Bool
  | .error e => e.kind == ExcKind.valueError
  | .ok _ => false

/-! ## ProjectInfo identifier normalization (opsml/projects/base/types.py)

Python strings are modelled as lists of characters; `str.strip`,
`str.lower` and `str.replace` are modelled at the ASCII level on which the
project identifiers live. -/

/-- The whitespace characters removed by Python `str.strip()` (ASCII
subset). -/
def isSpaceChar (c : Char) : Bool :=
  c == ' ' || c == '\t' || c == '\n' || c == '\r' || c == '\x0b' || c == '\x0c'

/-- Association lookup, first match wins. -/
def assocLookup : List (Char × Char) → Char → Option Char
  | [], _ => none
  | (k, v) :: rest, c => if c == k then some v else assocLookup rest c

/-- The ASCII uppercase-to-lowercase table used by `str.lower`. -/
def lowerMap : List (Char × Char) :=
  [ ('A', 'a'), ('B', 'b'), ('C', 'c'), ('D', 'd'), ('E', 'e'), ('F', 'f'),
    ('G', 'g'), ('H', 'h'), ('I', 'i'), ('J', 'j'), ('K', 'k'), ('L', 'l'),
    ('M', 'm'), ('N', 'n'), ('O', 'o'), ('P', 'p'), ('Q', 'q'), ('R', 'r'),
    ('S', 's'), ('T', 't'), ('U', 'u'), ('V', 'v'), ('W', 'w'), ('X', 'x'),
    ('Y', 'y'), ('Z', 'z') ]

/-- Whether a character is an ASCII uppercase letter. -/
def isUpperChar (c : Char) : Bool := (assocLookup lowerMap c).isSome

/-- `str.lower` on one character. -/
def lowerChar (c : Char) : Char := (assocLookup lowerMap c).getD c

/-- `str.replace("_", "-")` on one character (both operands have length
one, so the replacement acts characterwise). -/
def replChar (c : Char) : Char := if c == '_' then '-' else c

/-- `str.strip()`: drop whitespace from both ends. -/
def pyStrip (l : List Char) : List Char :=
  (((l.dropWhile isSpaceChar).reverse.dropWhile isSpaceChar)).reverse

/-- Embedding of `ProjectInfo.identifier_validator`:
`value.strip().lower().replace("_", "-")`. -/
def identifier_validator (l : List Char) : List Char :=
  ((pyStrip l).map lowerChar).map replChar

/-- Embedding of `ProjectInfo.project_id`: `f"{self.team}:{self.name}"`
over the already-validated fields. -/
def project_id (team name : List Char) : List Char := team ++ ':' :: name

/-- Normalization of a single character by the validator pipeline after
stripping. -/
def normChar (c : Char) : Char := replChar (lowerChar c)

theorem assocLookup_mem {m : List (Char × Char)} {c l : Char}
    (h : assocLookup m c = some l) : (c, l) ∈ m := by
  induction m with
  | nil => simp [assocLookup] at h
  | cons p rest ih =>
      obtain ⟨k, v⟩ := p
      by_cases hc : c = k
      · subst hc
        simp [assocLookup] at h
        simp [h]
      · simp [assocLookup, hc] at h
        exact List.mem_cons_of_mem _ (ih h)

theorem lowerMap_values_fresh :
    ∀ p ∈ lowerMap, assocLookup lowerMap p.2 = none
      ∧ isSpaceChar p.1 = false ∧ isSpaceChar p.2 = false ∧ p.2 ≠ '_' := by
  decide

theorem isUpperChar_lowerChar (c : Char) : isUpperChar (lowerChar c) = false := by
  unfold isUpperChar lowerChar
  cases h : assocLookup lowerMap c with
  | none => simp [isUpperChar, h]
  | some l =>
      have hm := lowerMap_values_fresh _ (assocLookup_mem h)
      simp [hm.1]

theorem isSpaceChar_lowerChar (c : Char) : isSpaceChar (lowerChar c) = isSpaceChar c := by
  unfold lowerChar
  cases h : assocLookup lowerMap c with
  | none => rfl
  | some l =>
      have hm := lowerMap_values_fresh _ (assocLookup_mem h)
      simp [hm.2.1, hm.2.2.1]

theorem lowerChar_idem (c : Char) : lowerChar (lowerChar c) = lowerChar c := by
  unfold lowerChar
  cases h : assocLookup lowerMap c with
  | none => simp [h]
  | some l =>
      have hm := lowerMap_values_fresh _ (assocLookup_mem h)
      simp [lowerChar, hm.1]

theorem isSpaceChar_replChar (c : Char) : isSpaceChar (replChar c) = isSpaceChar c := by
  unfold replChar
  by_cases h : c = '_'
  · subst h; decide
  · simp [h]

theorem isSpaceChar_normChar (c : Char) : isSpaceChar (normChar c) = isSpaceChar c := by
  unfold normChar
  rw [isSpaceChar_replChar, isSpaceChar_lowerChar]

theorem replChar_ne_underscore (c : Char) : replChar c ≠ '_' := by
  unfold replChar
  by_cases h : c = '_'
  · subst h; decide
  · simp [h]

theorem normChar_not_upper (c : Char) : isUpperChar (normChar c) = false := by
  unfold normChar replChar
  by_cases h : lowerChar c = '_'
  · simp [h]; decide
  · simp [h]
    exact isUpperChar_lowerChar c

theorem normChar_idem (c : Char) : normChar (normChar c) = normChar c := by
  unfold normChar
  by_cases h : lowerChar c = '_'
  · rw [h]; decide
  · have hr : replChar (lowerChar c) = lowerChar c := by
      unfold replChar; simp [h]
    rw [hr, lowerChar_idem, hr]

theorem head?_dropWhile {p : Char → Bool} :
    ∀ (l : List Char) (c : Char), (l.dropWhile p).head? = some c → p c = false := by
  intro l
  induction l with
  | nil => intro c h; simp at h
  | cons a t ih =>
      intro c h
      by_cases ha : p a
      · rw [List.dropWhile_cons_of_pos ha] at h
        exact ih c h
      · rw [List.dropWhile_cons_of_neg ha] at h
        simp at h
        subst h
        simpa using ha

theorem dropWhile_eq_self_of_head? {p : Char → Bool} (l : List Char)
    (h : ∀ c, l.head? = some c → p c = false) : l.dropWhile p = l := by
  cases l with
  | nil => rfl
  | cons a t => exact List.dropWhile_cons_of_neg (by simp [h a rfl])

theorem dropWhile_idem {p : Char → Bool} (l : List Char) :
    (l.dropWhile p).dropWhile p = l.dropWhile p := by
  induction l with
  | nil => rfl
  | cons a t ih =>
      by_cases ha : p a
      · rw [List.dropWhile_cons_of_pos ha]; exact ih
      · rw [List.dropWhile_cons_of_neg ha, List.dropWhile_cons_of_neg ha]

theorem getLast?_dropWhile {p : Char → Bool} :
    ∀ (l : List Char), l.dropWhile p ≠ [] → (l.dropWhile p).getLast? = l.getLast? := by
  intro l
  induction l with
  | nil => intro h; simp at h
  | cons a t ih =>
      intro h
      by_cases ha : p a
      · rw [List.dropWhile_cons_of_pos ha] at h ⊢
        have ht : t ≠ [] := by
          intro he; rw [he] at h; simp at h
        obtain ⟨b, t', rfl⟩ := List.exists_cons_of_ne_nil ht
        rw [ih h, List.getLast?_cons_cons]
      · rw [List.dropWhile_cons_of_neg ha]

theorem pyStrip_idem (l : List Char) : pyStrip (pyStrip l) = pyStrip l := by
  unfold pyStrip
  have h1 : (((l.dropWhile isSpaceChar).reverse.dropWhile isSpaceChar)).reverse.dropWhile isSpaceChar
      = (((l.dropWhile isSpaceChar).reverse.dropWhile isSpaceChar)).reverse := by
    apply dropWhile_eq_self_of_head?
    intro c hc
    rw [List.head?_reverse] at hc
    have hne : (l.dropWhile isSpaceChar).reverse.dropWhile isSpaceChar ≠ [] := by
      intro he; rw [he] at hc; simp at hc
    rw [getLast?_dropWhile _ hne, List.getLast?_reverse] at hc
    exact head?_dropWhile l c hc
  rw [h1, List.reverse_reverse, dropWhile_idem]

theorem dropWhile_map_normChar (l : List Char) :
    (l.map normChar).dropWhile isSpaceChar = (l.dropWhile isSpaceChar).map normChar := by
  induction l with
  | nil => rfl
  | cons a t ih =>
      by_cases ha : isSpaceChar a
      · rw [List.map_cons, List.dropWhile_cons_of_pos (by rw [isSpaceChar_normChar]; exact ha),
          List.dropWhile_cons_of_pos ha]
        exact ih
      · rw [List.map_cons, List.dropWhile_cons_of_neg (by rw [isSpaceChar_normChar]; exact ha),
          List.dropWhile_cons_of_neg ha, List.map_cons]

theorem pyStrip_map_normChar (l : List Char) :
    pyStrip (l.map normChar) = (pyStrip l).map normChar := by
  unfold pyStrip
  rw [dropWhile_map_normChar, ← List.map_reverse, dropWhile_map_normChar, ← List.map_reverse]

theorem identifier_validator_eq (l : List Char) :
    identifier_validator l = (pyStrip l).map normChar := by
  unfold identifier_validator
  rw [List.map_map]
  rfl

theorem map_normChar_idem (l : List Char) :
    (l.map normChar).map normChar = l.map normChar := by
  induction l with
  | nil => rfl
  | cons a t ih => simp only [List.map_cons, normChar_idem] at ih ⊢; rw [ih]

theorem identifier_validator_idem (l : List Char) :
    identifier_validator (identifier_validator l) = identifier_validator l := by
  rw [identifier_validator_eq, identifier_validator_eq,
    pyStrip_map_normChar, pyStrip_idem, map_normChar_idem]

theorem normChar_ne_underscore (c : Char) : normChar c ≠ '_' := by
  unfold normChar
  exact replChar_ne_underscore _

/-! ## Chunked download: iterfile (storage client)

Modelled from the spec: the storage client implementing `iterfile` is not
under src (only its caller in artifacts_routes.py is). Per the spec,
`iterfile(path, chunk_size)` reads the file and yields successive chunks
of at most `chunk_size` bytes until the file is exhausted. A file is a
list of bytes (as naturals); the fuel argument equals the file length so
the recursion is structural. -/

def iterfileAux : Nat → List Nat → Nat → List (List Nat)
  | 0, _, _ => []
  | _ + 1, [], _ => []
  | fuel + 1, a :: t, c => (a :: t).take c :: iterfileAux fuel ((a :: t).drop c) c

/-- Modelled from the spec: `iterfile` chunking of a file into pieces of at
most `chunkSize` bytes. -/
def iterfile (file : List Nat) (chunkSize : Nat) : List (List Nat) :=
  iterfileAux file.length file chunkSize

theorem iterfileAux_fuel_invariant (c : Nat) (hc : 0 < c) :
    ∀ (f1 f2 : Nat) (l : List Nat), l.length ≤ f1 → l.length ≤ f2 →
      iterfileAux f1 l c = iterfileAux f2 l c := by
  intro f1
  induction f1 with
  | zero =>
      intro f2 l h1 h2
      have : l = [] := by
        cases l with
        | nil => rfl
        | cons a t => simp at h1
      subst this
      cases f2 <;> rfl
  | succ n ih =>
      intro f2 l h1 h2
      cases l with
      | nil => cases f2 <;> rfl
      | cons a t =>
          cases f2 with
          | zero => simp at h2
          | succ m =>
              simp only [iterfileAux]
              congr 1
              have hd : ((a :: t).drop c).length ≤ t.length := by
                rw [List.length_drop]
                simp only [List.length_cons]
                omega
              simp only [List.length_cons] at h1 h2
              exact ih m ((a :: t).drop c) (by omega) (by omega)

theorem iterfileAux_fuel (c : Nat) (hc : 0 < c) (fuel : Nat) (l : List Nat)
    (h : l.length ≤ fuel) : iterfileAux fuel l c = iterfileAux l.length l c :=
  iterfileAux_fuel_invariant c hc fuel l.length l h (Nat.le_refl _)

theorem iterfile_step (c : Nat) (hc : 0 < c) (l : List Nat) (h : l ≠ []) :
    iterfile l c = l.take c :: iterfile (l.drop c) c := by
  obtain ⟨a, t, rfl⟩ := List.exists_cons_of_ne_nil h
  show iterfileAux (t.length + 1) (a :: t) c = _
  simp only [iterfileAux]
  congr 1
  apply iterfileAux_fuel c hc
  rw [List.length_drop]
  simp only [List.length_cons]
  omega

theorem iterfile_bounded (c : Nat) (hc : 0 < c) :
    ∀ (n : Nat) (l : List Nat), l.length ≤ n →
      (∀ ch ∈ iterfile l c, ch.length ≤ c) ∧ (iterfile l c).flatten = l := by
  intro n
  induction n with
  | zero =>
      intro l h
      have : l = [] := by
        cases l with
        | nil => rfl
        | cons a t => simp at h
      subst this
      exact ⟨by intro ch hch; simp [iterfile, iterfileAux] at hch, rfl⟩
  | succ n ih =>
      intro l h
      cases l with
      | nil => exact ⟨by intro ch hch; simp [iterfile, iterfileAux] at hch, rfl⟩
      | cons a t =>
          rw [iterfile_step c hc (a :: t) (by simp)]
          have hd : ((a :: t).drop c).length ≤ n := by
            rw [List.length_drop]
            simp only [List.length_cons]
            simp only [List.length_cons] at h
            omega
          obtain ⟨ihc, ihj⟩ := ih _ hd
          constructor
          · intro ch hch
            rcases List.mem_cons.mp hch with rfl | hm
            · rw [List.length_take]
              exact min_le_left _ _
            · exact ihc ch hm
          · simp only [List.flatten_cons]
            rw [ihj]
            exact List.take_append_drop c (a :: t)

theorem iterfile_six (c : Nat) (hc7 : 7 ≤ c) (l : List Nat) (hl : l.length = 5 * c + 7) :
    (iterfile l c).length = 6
    ∧ ((iterfile l c).getLast?).map List.length = some 7 := by
  have hc : 0 < c := by omega
  have h1 : l ≠ [] := by
    intro h; rw [h] at hl; simp only [List.length_nil] at hl; omega
  rw [iterfile_step c hc l h1]
  have hlen1 : (l.drop c).length = 4 * c + 7 := by rw [List.length_drop, hl]; omega
  have h2 : l.drop c ≠ [] := by
    intro h; rw [h] at hlen1; simp only [List.length_nil] at hlen1; omega
  rw [iterfile_step c hc _ h2]
  have hlen2 : ((l.drop c).drop c).length = 3 * c + 7 := by
    rw [List.length_drop, hlen1]; omega
  have h3 : (l.drop c).drop c ≠ [] := by
    intro h; rw [h] at hlen2; simp only [List.length_nil] at hlen2; omega
  rw [iterfile_step c hc _ h3]
  have hlen3 : (((l.drop c).drop c).drop c).length = 2 * c + 7 := by
    rw [List.length_drop, hlen2]; omega
  have h4 : ((l.drop c).drop c).drop c ≠ [] := by
    intro h; rw [h] at hlen3; simp only [List.length_nil] at hlen3; omega
  rw [iterfile_step c hc _ h4]
  have hlen4 : ((((l.drop c).drop c).drop c).drop c).length = c + 7 := by
    rw [List.length_drop, hlen3]; omega
  have h5 : (((l.drop c).drop c).drop c).drop c ≠ [] := by
    intro h; rw [h] at hlen4; simp only [List.length_nil] at hlen4; omega
  rw [iterfile_step c hc _ h5]
  have hlen5 : (((((l.drop c).drop c).drop c).drop c).drop c).length = 7 := by
    rw [List.length_drop, hlen4]; omega
  have h6 : ((((l.drop c).drop c).drop c).drop c).drop c ≠ [] := by
    intro h; rw [h] at hlen5; simp only [List.length_nil] at hlen5; omega
  rw [iterfile_step c hc _ h6]
  have htake : (((((l.drop c).drop c).drop c).drop c).drop c).take c
      = ((((l.drop c).drop c).drop c).drop c).drop c := by
    apply List.take_of_length_le
    rw [hlen5]; omega
  have hdrop : ((((((l.drop c).drop c).drop c).drop c).drop c).drop c) = [] := by
    apply List.eq_nil_of_length_eq_zero
    rw [List.length_drop, hlen5]; omega
  rw [htake, hdrop]
  constructor
  · rfl
  · show some ((((((l.drop c).drop c).drop c).drop c).drop c).length) = some 7
    rw [hlen5]

/-! ## POST /upload (artifacts_routes.py upload_file) -/

/-- Maximum single-file size from artifacts_routes.py: 50 GiB. -/
def MAX_FILE_SIZE : Nat := 1024 * 1024 * 1024 * 50

/-- Maximum request body size: the file bound plus 1 KiB. -/
def MAX_REQUEST_BODY_SIZE : Nat := MAX_FILE_SIZE + 1024

/-- The Filename and WritePath headers of an upload request. -/
structure UploadHeaders where
  filename : Option String
  writePath : Option String
  deriving DecidableEq, Repr

/-- One chunk of the streamed request body: its raw length, the multipart
file bytes it carries, and whether the multipart file part begins in it. -/
structure Chunk where
  bodyLen : Nat
  fileLen : Nat
  startsFilePart : Bool
  deriving DecidableEq, Repr

/-- The size-exceeded exceptions of the upload loop: `MaxBodySizeException`
carrying the bytes read, and the file-size `ValidationError`. -/
inductive SizeExc where
  | maxBody (bodyLen : Nat)
  | maxFile
  deriving DecidableEq, Repr

/-- Modelled from the spec: the per-chunk body of the upload loop.
`MaxBodySizeValidator` (opsml/app/routes/utils.py, not under src)
accumulates the body length and raises `MaxBodySizeException` the moment
it exceeds its bound; `ExternalFileTarget` with the library
`MaxSizeValidator` accumulates the received file bytes and raises a
`ValidationError` the moment they exceed the file bound, recording
whether the multipart file part has begun. The body validator runs before
the parser on each chunk, as in upload_file. -/
def streamLoop : List Chunk → Nat → Nat → Bool → Except SizeExc (Nat × Nat × Bool)
  | [], b, f, m => .ok (b, f, m)
  | ch :: rest, b, f, m =>
      let b2 := b + ch.bodyLen
      if MAX_REQUEST_BODY_SIZE < b2 then .error (.maxBody b2)
      else
        let f2 := f + ch.fileLen
        if MAX_FILE_SIZE < f2 then .error .maxFile
        else streamLoop rest b2 f2 (m || ch.startsFilePart)

/-- Outcome of the upload route. -/
inductive UploadResult where
  | httpError (statusCode : Nat) (detail : String)
  | success (storage_uri : String)
  deriving DecidableEq, Repr

/-- `os.path.join` for one relative component. -/
def pathJoin (a b : String) : String := a ++ "/" ++ b

/-- Embedding of the `upload_file` route: header checks, the chunked
stream loop with both size validators, the swallowed `ClientDisconnect`
(modelled as the stream ending after `disconnectAfter` chunks), the 413
mappings for the size exceptions, and the final multipart-filename
check. -/
def upload_file (h : UploadHeaders) (chunks : List Chunk)
    (disconnectAfter : Option Nat) : UploadResult :=
  match h.filename with
  | none => .httpError 422 "Filename header is missing"
  | some filename =>
    match h.writePath with
    | none => .httpError 422 "No write path provided"
    | some writePath =>
      let received := match disconnectAfter with
        | some k => chunks.take k
        | none => chunks
      match streamLoop received 0 0 false with
      | .error (.maxBody n) =>
          .httpError 413 ("Maximum request body size limit exceeded: " ++ toString n ++ " bytes read")
      | .error .maxFile => .httpError 413 "Maximum file size limit exceeded"
      | .ok (_, _, m) =>
          if m then .success (pathJoin writePath filename)
          else .httpError 422 "File is missing"

/-- Status code of an upload outcome (200 for success). -/
def uploadStatus : UploadResult → Nat
  | .httpError s _ => s
  | .success _ => 200

/-- Total raw body length of a chunk list. -/
def totalBody (chunks : List Chunk) : Nat := (chunks.map Chunk.bodyLen).sum

/-- Total multipart file bytes of a chunk list. -/
def totalFile (chunks : List Chunk) : Nat := (chunks.map Chunk.fileLen).sum

/-- Whether the multipart file part begins anywhere in the chunk list. -/
def anyFileStart (chunks : List Chunk) : Bool := chunks.any Chunk.startsFilePart

theorem streamLoop_ok (chunks : List Chunk) :
    ∀ (b f : Nat) (m : Bool), b + totalBody chunks ≤ MAX_REQUEST_BODY_SIZE →
      f + totalFile chunks ≤ MAX_FILE_SIZE →
      streamLoop chunks b f m
        = .ok (b + totalBody chunks, f + totalFile chunks, m || anyFileStart chunks) := by
  induction chunks with
  | nil =>
      intro b f m hb hf
      simp [streamLoop, totalBody, totalFile, anyFileStart]
  | cons ch rest ih =>
      intro b f m hb hf
      have hbt : totalBody (ch :: rest) = ch.bodyLen + totalBody rest := by
        simp [totalBody]
      have hft : totalFile (ch :: rest) = ch.fileLen + totalFile rest := by
        simp [totalFile]
      rw [hbt] at hb
      rw [hft] at hf
      simp only [streamLoop]
      rw [if_neg (by omega), if_neg (by omega)]
      rw [ih (b + ch.bodyLen) (f + ch.fileLen) (m || ch.startsFilePart) (by omega) (by omega)]
      have hm : ((m || ch.startsFilePart) || anyFileStart rest)
          = (m || anyFileStart (ch :: rest)) := by
        simp [anyFileStart, List.any_cons, Bool.or_assoc]
      simp only [hbt, hft, hm, Nat.add_assoc]

theorem streamLoop_ok_bounds (chunks : List Chunk) :
    ∀ (b f : Nat) (m : Bool) (b2 f2 : Nat) (m2 : Bool),
      streamLoop chunks b f m = .ok (b2, f2, m2) →
      b2 = b + totalBody chunks ∧ f2 = f + totalFile chunks
        ∧ (chunks ≠ [] → b2 ≤ MAX_REQUEST_BODY_SIZE ∧ f2 ≤ MAX_FILE_SIZE) := by
  induction chunks with
  | nil =>
      intro b f m b2 f2 m2 h
      simp [streamLoop] at h
      refine ⟨by simp [totalBody, h.1], by simp [totalFile, h.2.1], by intro hc; exact absurd rfl hc⟩
  | cons ch rest ih =>
      intro b f m b2 f2 m2 h
      simp only [streamLoop] at h
      by_cases hb : MAX_REQUEST_BODY_SIZE < b + ch.bodyLen
      · rw [if_pos hb] at h; exact absurd h (by simp)
      · rw [if_neg hb] at h
        by_cases hf : MAX_FILE_SIZE < f + ch.fileLen
        · rw [if_pos hf] at h; exact absurd h (by simp)
        · rw [if_neg hf] at h
          obtain ⟨e1, e2, e3⟩ := ih _ _ _ _ _ _ h
          have hbt : totalBody (ch :: rest) = ch.bodyLen + totalBody rest := by
            simp [totalBody]
          have hft : totalFile (ch :: rest) = ch.fileLen + totalFile rest := by
            simp [totalFile]
          refine ⟨by rw [hbt]; omega, by rw [hft]; omega, ?_⟩
          intro _
          cases rest with
          | nil =>
              simp [streamLoop] at h
              constructor
              · rw [← h.1]; omega
              · rw [← h.2.1]; omega
          | cons ch2 rest2 =>
              exact e3 (by simp)

theorem streamLoop_error_absorb (pre : List Chunk) :
    ∀ (rest : List Chunk) (b f : Nat) (m : Bool) (e : SizeExc),
      streamLoop pre b f m = .error e →
      streamLoop (pre ++ rest) b f m = .error e := by
  induction pre with
  | nil =>
      intro rest b f m e h
      simp [streamLoop] at h
  | cons ch tl ih =>
      intro rest b f m e h
      simp only [streamLoop, List.cons_append] at h ⊢
      by_cases hb : MAX_REQUEST_BODY_SIZE < b + ch.bodyLen
      · rw [if_pos hb] at h ⊢; exact h
      · rw [if_neg hb] at h ⊢
        by_cases hf : MAX_FILE_SIZE < f + ch.fileLen
        · rw [if_pos hf] at h ⊢; exact h
        · rw [if_neg hf] at h ⊢
          exact ih rest _ _ _ _ h

/-! ## Polars data interface (opsml/registry/data/interfaces/polars_.py)

A polars DataFrame is modelled structurally as its ordered column schema
(name and dtype per column) and its row count; `to_arrow` and
`pl.from_arrow` translate between the polars and arrow views of the same
structure, and the parquet file system is an association list from paths
to stored arrow tables. -/

/-- A polars DataFrame: ordered (column name, dtype) schema and height. -/
structure PlDataFrame where
  schema : List (String × String)
  height : Nat
  deriving DecidableEq, Repr

/-- A pyarrow table as written to and read from parquet. -/
structure PaTable where
  schema : List (String × String)
  height : Nat
  deriving DecidableEq, Repr

/-- `DataFrame.to_arrow`. -/
def PlDataFrame.to_arrow (d : PlDataFrame) : PaTable := ⟨d.schema, d.height⟩

/-- `pl.from_arrow`. -/
def pl_from_arrow (t : PaTable) : PlDataFrame := ⟨t.schema, t.height⟩

/-- `opsml.registry.types.Feature` as built by `save_data`. -/
structure Feature where
  feature_type : String
  shape : List Nat
  deriving DecidableEq, Repr

/-- `pathlib.Path.with_suffix`: replace the extension after the final dot
(or append when there is none). -/
def with_suffix (p : List Char) (suffix : List Char) : List Char :=
  match p.reverse.dropWhile (fun c => c != '.') with
  | [] => p ++ suffix
  | _ :: rest => rest.reverse ++ suffix

/-- `Suffix.PARQUET.value`, the storage suffix of the polars interface. -/
def PARQUET_SUFFIX : List Char := ".parquet".data

/-- The parquet store: path to stored table. -/
def FileSys : Type := List (List Char × PaTable)

/-- `pq.write_table(table, path)`. -/
def fsWrite (fs : FileSys) (p : List Char) (t : PaTable) : FileSys := (p, t) :: fs

/-- `pq.ParquetDataset(path).read()`: the table at the path, if present. -/
def fsRead : FileSys → List Char → Option PaTable
  | [], _ => none
  | (q, t) :: rest, p => if p = q then some t else fsRead rest p

/-- The mutable state of a `PolarsData` interface. -/
structure PolarsData where
  data : Option PlDataFrame
  feature_map : List (String × Feature)
  deriving DecidableEq, Repr

/-- Modelled from the spec: `check_data_schema`
(opsml/registry/data/formatter.py, not under src) validates the loaded
data against the stored feature map and hands the data back; the schema
is stored alongside the artifact and not recomputed on load. -/
def check_data_schema (d : PlDataFrame) (fm : List (String × Feature)) : PlDataFrame := d

/-- Embedding of `PolarsData.save_data`: asserts data is present, derives
the feature map from the schema, computes `save_path` as the path with
the parquet suffix, writes the arrow table at `path` (the unsuffixed
argument, exactly as the source does), and returns `save_path`. -/
def PolarsData.save_data (self : PolarsData) (fs : FileSys) (path : List Char) :
    Except String (PolarsData × FileSys × List Char) :=
  match self.data with
  | none => .error "No data detected in interface"
  | some d =>
      let fm := d.schema.map (fun kv => (kv.1, Feature.mk kv.2 [1]))
      let save_path := with_suffix path PARQUET_SUFFIX
      let fs2 := fsWrite fs path d.to_arrow
      .ok ({ self with feature_map := fm }, fs2, save_path)

/-- Embedding of `PolarsData.load_data`: reads the parquet dataset at the
path with the parquet suffix, converts it from arrow and runs the schema
check; a missing file is a read error. -/
def PolarsData.load_data (self : PolarsData) (fs : FileSys) (path : List Char) :
    Except String PolarsData :=
  let load_path := with_suffix path PARQUET_SUFFIX
  match fsRead fs load_path with
  | none => .error "FileNotFoundError"
  | some t =>
      .ok { self with data := some (check_data_schema (pl_from_arrow t) self.feature_map) }

/-- A concrete one-column polars DataFrame interface. -/
def samplePolars : PolarsData :=
  { data := some ⟨[("a", "Int64")], 3⟩, feature_map := [] }

/-- A storage path without the parquet suffix. -/
def unsuffixedPath : List Char := "data".data

/-- `samplePolars` after `save_data` set its feature map. -/
def savedPolars : PolarsData :=
  { data := some ⟨[("a", "Int64")], 3⟩, feature_map := [("a", ⟨"Int64", [1]⟩)] }

end Opsml

namespace Opsml

/-! ## Theorems for claims C2 to C5 -/

/-- C2 counterexample: on the unsupported object `floatObj`, the
dispatcher raises `ValueError`, not an `UnsupportedTypeError`. -/
theorem check_data_type_raises_valueError_cex :
    check_data_type floatObj =
      Except.error { kind := ExcKind.valueError, msg := unsupportedMsg floatObj.typeRepr }
    ∧ ExcKind.valueError ≠ ExcKind.unsupportedTypeError := by
  refine ⟨rfl, by decide⟩

/-- C2 (amended): for every input matching no classifier, `check_data_type`
fails with a `ValueError` whose message contains `str(type(data))`. -/
theorem check_data_type_unsupported (data : PyObjView)
    (hDict : data.isDict = false) (hImg : data.isImageDataset = false)
    (hNd : data.isNdarray = false) (hPd : data.isPandasDF = false)
    (hPl : data.isPolarsDF = false) (hPa : data.isArrowTable = false)
    (hStr : data.isStr = false)
    (hTb : data.className ≠ AllowedDataType.TRANSFORMER_BATCH)
    (hTo : data.className ≠ AllowedDataType.TORCH_TENSOR)
    (hTf : data.className ≠ AllowedDataType.TENSORFLOW_TENSOR) :
    check_data_type data =
      Except.error { kind := ExcKind.valueError, msg := unsupportedMsg data.typeRepr }
    ∧ List.IsInfix data.typeRepr.data (unsupportedMsg data.typeRepr).data := by
  constructor
  · simp [check_data_type, hDict, hImg, hNd, hPd, hPl, hPa, hStr, hTb, hTo, hTf]
  · refine ⟨("Data must be one of the following types: numpy array, pandas dataframe, polars dataframe, pyarrow table, or ImageDataset. Received ").data, [], ?_⟩
    simp [unsupportedMsg, String.data_append]

/-- C2 witness: the amended theorem instantiated at the concrete float
object. -/
theorem check_data_type_unsupported_witness :
    check_data_type floatObj =
      Except.error { kind := ExcKind.valueError, msg := unsupportedMsg floatObj.typeRepr }
    ∧ List.IsInfix floatObj.typeRepr.data (unsupportedMsg floatObj.typeRepr).data :=
  check_data_type_unsupported floatObj rfl rfl rfl rfl rfl rfl rfl
    (by decide) (by decide) (by decide)

set_option maxHeartbeats 2000000 in
/-- C3: `check_data_type` realises exactly the first-match semantics over
the fixed priority list (dict, image, ndarray, pandas, polars, pyarrow,
str, then named-class fallbacks); in particular an object that is both a
dict and an ndarray is tagged dict. -/
theorem check_data_type_priority (d : PyObjView) :
    (check_data_type d).toOption = firstMatch classifiers d
    ∧ (d.isDict = true → check_data_type d = Except.ok AllowedDataType.DICT) := by
  constructor
  · simp only [check_data_type, classifiers, firstMatch]
    split_ifs <;> rfl
  · intro h
    simp [check_data_type, h]

/-- C3 witness: the priority theorem applied to a concrete object whose
structural checks report dict, ndarray and pandas simultaneously. -/
theorem check_data_type_priority_witness :
    check_data_type dictAndArrayObj = Except.ok AllowedDataType.DICT :=
  (check_data_type_priority dictAndArrayObj).2 rfl

/-- C4 counterexample: when the registry lookup returns no card,
`download_model` answers with status 500, which is not a 4xx code. -/
theorem download_model_notfound_cex :
    download_model [] = DownloadModelResult.httpError 500 "No model found"
    ∧ ¬ (400 ≤ downloadStatus (download_model []) ∧ downloadStatus (download_model []) < 500) := by
  refine ⟨rfl, by decide⟩

/-- C4 (amended): every registry lookup miss in `download_model` responds
with HTTP 500 and detail naming the miss, not with a 4xx code. -/
theorem download_model_notfound (cards : List ModelCardRecord) (h : cards = []) :
    download_model cards = DownloadModelResult.httpError 500 "No model found" := by
  subst h; rfl

/-- C4 witness: the amended theorem at the empty card list. -/
theorem download_model_notfound_witness :
    download_model [] = DownloadModelResult.httpError 500 "No model found" :=
  download_model_notfound [] rfl

/-- C5 counterexample: for a float64 numpy array the derived schema keys
the dtype under `numpy_dtype`, so the claimed key `dtype` is absent. -/
theorem numpy_schema_key_cex :
    create_table_schema (ArrowOrNumpy.ndarray "float64") = [("numpy_dtype", some "float64")]
    ∧ (create_table_schema (ArrowOrNumpy.ndarray "float64")).lookup "dtype" = none
    ∧ ("numpy_dtype" : String) ≠ "dtype" := by
  refine ⟨rfl, by decide, by decide⟩

/-- C5 (amended): for every numpy ndarray the derived schema is the
single-entry map from `numpy_dtype` to the dtype string. -/
theorem numpy_schema (dtype : String) :
    create_table_schema (ArrowOrNumpy.ndarray dtype) = [("numpy_dtype", some dtype)] := rfl

/-- C6: on a splitter built from an explicit-indices split, the
column_name, column_value, start and stop properties raise `ValueError`,
and on a splitter built from a start/stop range split the column_name,
column_value and indices properties raise `ValueError` — never a silent
default. -/
theorem splitter_wrong_variant_raises (label : String) (idx : List Nat)
    (a b : Int) (deps : List String) :
    raisesValueError (DataSplitterBase.columnName ⟨mkIndicesSplit label idx, deps⟩) = true
    ∧ raisesValueError (DataSplitterBase.columnValue ⟨mkIndicesSplit label idx, deps⟩) = true
    ∧ raisesValueError (DataSplitterBase.startIdx ⟨mkIndicesSplit label idx, deps⟩) = true
    ∧ raisesValueError (DataSplitterBase.stopIdx ⟨mkIndicesSplit label idx, deps⟩) = true
    ∧ raisesValueError (DataSplitterBase.columnName ⟨mkRangeSplit label a b, deps⟩) = true
    ∧ raisesValueError (DataSplitterBase.columnValue ⟨mkRangeSplit label a b, deps⟩) = true
    ∧ raisesValueError (DataSplitterBase.indicesList ⟨mkRangeSplit label a b, deps⟩) = true := by
  exact ⟨rfl, rfl, rfl, rfl, rfl, rfl, rfl⟩

/-- C9: ProjectInfo normalization. Every character of the project_id built
from validated team and name is neither an uppercase letter nor an
underscore, and the identifier validator is idempotent. -/
theorem projectInfo_normalization (name team : List Char) :
    (∀ c ∈ project_id (identifier_validator team) (identifier_validator name),
      isUpperChar c = false ∧ c ≠ '_')
    ∧ identifier_validator (identifier_validator name) = identifier_validator name := by
  constructor
  · intro c hc
    unfold project_id at hc
    rw [List.mem_append] at hc
    rcases hc with h | h
    · rw [identifier_validator_eq] at h
      obtain ⟨a, _, rfl⟩ := List.mem_map.mp h
      exact ⟨normChar_not_upper a, normChar_ne_underscore a⟩
    · rcases List.mem_cons.mp h with rfl | h
      · exact ⟨by decide, by decide⟩
      · rw [identifier_validator_eq] at h
        obtain ⟨a, _, rfl⟩ := List.mem_map.mp h
        exact ⟨normChar_not_upper a, normChar_ne_underscore a⟩
  · exact identifier_validator_idem name

/-- C9 witness: the normalization theorem applied to the concrete inputs
" My_Model" and "Shipt_TEAM", instantiating the membership hypothesis at
the character y of the validated name. -/
theorem projectInfo_normalization_witness :
    (isUpperChar 'y' = false ∧ 'y' ≠ '_')
    ∧ identifier_validator (identifier_validator (" My_Model".data))
        = identifier_validator (" My_Model".data) := by
  have h := projectInfo_normalization (" My_Model".data) ("Shipt_TEAM".data)
  exact ⟨h.1 'y' (by decide), h.2⟩

/-- C8 counterexample: with chunk_size = 1, a file of size 5*1+7 = 12
bytes yields 12 chunks, not 6, so the per-chunk-size instance of the
claim fails for small chunk sizes. -/
theorem iterfile_six_chunks_cex :
    (List.replicate 12 (0 : Nat)).length = 5 * 1 + 7
    ∧ (iterfile (List.replicate 12 (0 : Nat)) 1).length ≠ 6 := by
  decide

/-- C8 (amended): for every file and positive chunk size, iterfile yields
finitely many chunks each of length at most chunk_size whose
concatenation is the file (so total length equals the file size); and
when the chunk size is at least 7, over a file of size 5*chunk_size+7 it
yields exactly 6 chunks, the last of length 7. -/
theorem iterfile_spec (file : List Nat) (c : Nat) (hc : 0 < c) :
    (∀ ch ∈ iterfile file c, ch.length ≤ c)
    ∧ (iterfile file c).flatten = file
    ∧ (7 ≤ c → file.length = 5 * c + 7 →
        (iterfile file c).length = 6
        ∧ ((iterfile file c).getLast?).map List.length = some 7) := by
  obtain ⟨h1, h2⟩ := iterfile_bounded c hc file.length file (Nat.le_refl _)
  exact ⟨h1, h2, fun h7 hl => iterfile_six c h7 file hl⟩

/-- C8 witness: the iterfile theorem at chunk size 8 over a 47-byte file:
6 chunks, the last of length 7, concatenating back to the file. -/
theorem iterfile_spec_witness :
    ((iterfile (List.replicate 47 (0 : Nat)) 8).length = 6
      ∧ ((iterfile (List.replicate 47 (0 : Nat)) 8).getLast?).map List.length = some 7)
    ∧ (iterfile (List.replicate 47 (0 : Nat)) 8).flatten = List.replicate 47 0 := by
  have h := iterfile_spec (List.replicate 47 0) 8 (by decide)
  exact ⟨h.2.2 (by decide) (by decide), h.2.1⟩

/-- C7: POST /upload rejects a missing Filename or WritePath header with
422; with both headers present, a file of exactly the maximum size whose
body stays within the body bound succeeds, any upload whose total file or
body size is one byte (or more) over its bound answers 413, and a size
error on a prefix of the stream settles the outcome regardless of the
remaining chunks (the bound aborts the instant it is crossed, before the
full body is read). -/
theorem upload_file_limits (h : UploadHeaders) (chunks : List Chunk) :
    (h.filename = none →
      upload_file h chunks none = UploadResult.httpError 422 "Filename header is missing")
    ∧ (∀ fn, h.filename = some fn → h.writePath = none →
        upload_file h chunks none = UploadResult.httpError 422 "No write path provided")
    ∧ (∀ fn wp, h.filename = some fn → h.writePath = some wp →
        (totalFile chunks = MAX_FILE_SIZE → totalBody chunks ≤ MAX_REQUEST_BODY_SIZE →
          anyFileStart chunks = true →
          upload_file h chunks none = UploadResult.success (pathJoin wp fn))
        ∧ (MAX_FILE_SIZE < totalFile chunks ∨ MAX_REQUEST_BODY_SIZE < totalBody chunks →
            uploadStatus (upload_file h chunks none) = 413)
        ∧ (∀ pre rest e, chunks = pre ++ rest → streamLoop pre 0 0 false = .error e →
            upload_file h chunks none = upload_file h pre none
            ∧ uploadStatus (upload_file h pre none) = 413)) := by
  refine ⟨?_, ?_, ?_⟩
  · intro hf
    simp [upload_file, hf]
  · intro fn hf hw
    simp [upload_file, hf, hw]
  · intro fn wp hf hw
    refine ⟨?_, ?_, ?_⟩
    · intro hfe hbl hstart
      have hok := streamLoop_ok chunks 0 0 false (by omega) (by omega)
      simp only [Nat.zero_add] at hok
      simp [upload_file, hf, hw, hok, hstart]
    · intro hover
      simp only [upload_file, hf, hw]
      cases hres : streamLoop chunks 0 0 false with
      | error e => cases e <;> simp [uploadStatus]
      | ok triple =>
          obtain ⟨b2, f2, m2⟩ := triple
          obtain ⟨e1, e2, e3⟩ := streamLoop_ok_bounds chunks 0 0 false b2 f2 m2 hres
          have hne : chunks ≠ [] := by
            intro hnil
            subst hnil
            simp [totalFile, totalBody] at hover
          obtain ⟨hb2, hf2⟩ := e3 hne
          simp only [Nat.zero_add] at e1 e2
          subst e1
          subst e2
          rcases hover with h1 | h1 <;> omega
    · intro pre rest e hsplit herr
      subst hsplit
      have habs := streamLoop_error_absorb pre rest 0 0 false e herr
      constructor
      · simp only [upload_file, hf, hw, habs, herr]
      · simp only [upload_file, hf, hw, herr]
        cases e <;> simp [uploadStatus]

/-- C7 witness: the upload theorem at concrete headers and a single chunk
carrying exactly the maximum file size within the body bound: the upload
succeeds. -/
theorem upload_file_limits_witness :
    upload_file { filename := some "model.onnx", writePath := some "artifacts" }
      [{ bodyLen := MAX_FILE_SIZE + 500, fileLen := MAX_FILE_SIZE, startsFilePart := true }]
      none
    = UploadResult.success "artifacts/model.onnx" := by
  have h := upload_file_limits
    { filename := some "model.onnx", writePath := some "artifacts" }
    [{ bodyLen := MAX_FILE_SIZE + 500, fileLen := MAX_FILE_SIZE, startsFilePart := true }]
  exact (h.2.2 "model.onnx" "artifacts" rfl rfl).1
    (by simp [totalFile]) (by simp [totalBody, MAX_REQUEST_BODY_SIZE]) rfl

/-- C10: if the client disconnects after k chunks and no size bound was
crossed, the handler swallows the disconnect: when the multipart file
part had begun it returns the normal success body for the partial
artifact, and only when no file part was received does it answer 422 —
never a dedicated error status for the interruption. -/
theorem upload_file_disconnect (fn wp : String) (chunks : List Chunk) (k : Nat)
    (b f : Nat) (m : Bool)
    (hok : streamLoop (chunks.take k) 0 0 false = .ok (b, f, m)) :
    (m = true →
      upload_file { filename := some fn, writePath := some wp } chunks (some k)
        = UploadResult.success (pathJoin wp fn))
    ∧ (m = false →
      upload_file { filename := some fn, writePath := some wp } chunks (some k)
        = UploadResult.httpError 422 "File is missing") := by
  constructor
  · intro hm
    subst hm
    simp [upload_file, hok]
  · intro hm
    subst hm
    simp [upload_file, hok]

/-- C1: evaluation of the polars save/load round trip at the failing
input. `save_data` writes the arrow table at the unsuffixed argument path
yet returns a `save_path` carrying the parquet suffix, and `load_data`
reads at the suffixed path, so the round trip at a path without the
parquet suffix fails with a missing file instead of restoring the
DataFrame; at a path already carrying the suffix the round trip does
restore it structurally (schema, column order and height). -/
theorem polars_roundtrip_bug :
    PolarsData.save_data samplePolars [] unsuffixedPath
      = Except.ok (savedPolars,
          [(unsuffixedPath, PaTable.mk [("a", "Int64")] 3)],
          with_suffix unsuffixedPath PARQUET_SUFFIX)
    ∧ with_suffix unsuffixedPath PARQUET_SUFFIX ≠ unsuffixedPath
    ∧ PolarsData.load_data savedPolars
        [(unsuffixedPath, PaTable.mk [("a", "Int64")] 3)] unsuffixedPath
      = Except.error "FileNotFoundError"
    ∧ PolarsData.save_data samplePolars [] ("data.parquet".data)
      = Except.ok (savedPolars,
          [("data.parquet".data, PaTable.mk [("a", "Int64")] 3)],
          "data.parquet".data)
    ∧ PolarsData.load_data savedPolars
        [("data.parquet".data, PaTable.mk [("a", "Int64")] 3)] ("data.parquet".data)
      = Except.ok savedPolars := by
  exact ⟨rfl, by decide, rfl, rfl, rfl⟩

/-- C10 witness: a disconnect after the first of two chunks, the file part
already begun: the route returns the success body for the partial
artifact. -/
theorem upload_file_disconnect_witness :
    upload_file { filename := some "a.bin", writePath := some "w" }
      [{ bodyLen := 100, fileLen := 80, startsFilePart := true },
       { bodyLen := 100, fileLen := 80, startsFilePart := false }]
      (some 1)
    = UploadResult.success "w/a.bin" := by
  have h := upload_file_disconnect "a.bin" "w"
    [{ bodyLen := 100, fileLen := 80, startsFilePart := true },
     { bodyLen := 100, fileLen := 80, startsFilePart := false }]
    1 100 80 true (by rfl)
  exact h.1 rfl

end Opsml
